import Mathlib

/-!
Verification of `renamevideos.py`: a shallow embedding of the metadata-driven
video-rename pipeline (file discovery, metadata extraction, filename
construction, rename step, driver), together with theorems settling the
specification claims against it.

Conventions of the embedding:
* Python exceptions are modelled by `Except PyExc`; a function that can raise
  returns `Except PyExc α`.
* `pathlib.Path` values are modelled by `PyPath`: a list of parent components
  plus a final name component.
* The external `ffmpeg.probe` collaborator is out of scope (spec §6); its
  outcome for one file is modelled by the `ProbeResult` the extractor consumes.
* `datetime` values are modelled by `PyDateTime` (Gregorian fields).
-/

namespace RenameVideos

/-- Model of a `pathlib.Path`: the parent directory as a component list and
the final name component. -/
structure PyPath where
  parent : List String
  name : String
deriving DecidableEq, Repr

/-- `str(path)` : components joined by "/". -/
def pathStr (p : PyPath) : String :=
  String.intercalate "/" (p.parent ++ [p.name])

/-- Index of the last occurrence of `c` (CPython `str.rfind`, as an Option
instead of `-1`). -/
def rfindChar (c : Char) : List Char → Option Nat
  | [] => none
  | a :: as =>
    match rfindChar c as with
    | some i => some (i + 1)
    | none => if a = c then some 0 else none

/-- `Path.suffix` (CPython pathlib): the part of the name from the last dot
on, provided that dot is neither the first nor the last character; otherwise
the empty string. -/
def pySuffix (name : String) : String :=
  let cs := name.toList
  match rfindChar '.' cs with
  | some i => if 0 < i ∧ i < cs.length - 1 then String.mk (cs.drop i) else ""
  | none => ""

/-- `Path.stem` (CPython pathlib): the name with its `pySuffix` removed. -/
def pyStem (name : String) : String :=
  let cs := name.toList
  match rfindChar '.' cs with
  | some i => if 0 < i ∧ i < cs.length - 1 then String.mk (cs.take i) else name
  | none => name

/-- Python `str.lower()`, character-wise (ASCII; non-ASCII case folding never
arises in extensions). -/
def pyLower (s : String) : String :=
  String.mk (s.toList.map Char.toLower)

/-- Decimal value of a digit string, most significant digit first
(Horner evaluation, as `int()` computes it). -/
def digitsVal (ds : List Char) : Nat :=
  ds.foldl (fun a c => 10 * a + (c.toNat - 48)) 0

/-- Python `int(s)` on a string: surrounding ASCII whitespace is stripped,
then an optional single sign followed by a nonempty digit string is accepted;
anything else raises `ValueError` (here: `none`).  Underscore digit grouping
and non-ASCII digits, which Python also accepts, never occur in ffprobe
output and are not modelled.  `pyStrip` is the whitespace stripping step. -/
def pyStrip (s : String) : List Char :=
  ((s.toList.dropWhile Char.isWhitespace).reverse.dropWhile
    Char.isWhitespace).reverse

/-- The sign-and-digits part of `int()` after whitespace stripping. -/
def pyIntCore : List Char → Option Int
  | [] => none
  | c :: ds =>
    if c = '-' then
      if ds ≠ [] ∧ ds.all Char.isDigit then some (-(digitsVal ds : Int))
      else none
    else if c = '+' then
      if ds ≠ [] ∧ ds.all Char.isDigit then some ((digitsVal ds : Int))
      else none
    else
      if (c :: ds).all Char.isDigit then some ((digitsVal (c :: ds) : Int))
      else none

def pyInt (s : String) : Option Int :=
  pyIntCore (pyStrip s)

/-- `s.split("/")[0]`: everything before the first `'/'` (the whole string
when there is none); `split` never returns an empty list, so the index is
always in range. -/
def splitSlashHead (s : String) : String :=
  String.mk (s.toList.takeWhile (fun c => c != '/'))

/-- Line 107: `int(info.get("r_frame_rate").split("/")[0])` — the frame-rate
parse applied to the rational string. -/
def parseFrameRate (s : String) : Option Int :=
  pyInt (splitSlashHead s)

/-- Model of a `datetime.datetime` value (Gregorian fields). -/
structure PyDateTime where
  year : Nat
  month : Nat
  day : Nat
  hour : Nat
  minute : Nat
  second : Nat
  microsecond : Nat
deriving DecidableEq, Repr

def isLeap (y : Nat) : Bool :=
  (y % 4 = 0 && y % 100 != 0) || y % 400 = 0

def daysInMonth (y m : Nat) : Nat :=
  if m = 2 then (if isLeap y then 29 else 28)
  else if m = 4 ∨ m = 6 ∨ m = 9 ∨ m = 11 then 30
  else 31

/-- One numeric strptime field: greedily read `hi` digits at most; accept when
at least `lo` digits were read and the value lies in `[minV, maxV]`.  Because
every field of the fixed format is followed by a non-digit literal, this
greedy reading agrees with CPython's backtracking regexes. -/
def pField (lo hi minV maxV : Nat) (cs : List Char) :
    Option (Nat × List Char) :=
  let ds := (cs.takeWhile Char.isDigit).take hi
  if lo ≤ ds.length ∧ minV ≤ digitsVal ds ∧ digitsVal ds ≤ maxV then
    some (digitsVal ds, cs.drop ds.length)
  else none

/-- One literal character of the strptime format. -/
def pLit (c : Char) : List Char → Option (List Char)
  | x :: xs => if x = c then some xs else none
  | [] => none

/-- `%f`: one to six digits, right-padded with zeros to microseconds. -/
def pFrac (cs : List Char) : Option (Nat × List Char) :=
  let ds := (cs.takeWhile Char.isDigit).take 6
  if 1 ≤ ds.length then
    some (digitsVal ds * 10 ^ (6 - ds.length), cs.drop ds.length)
  else none

/-- Line 116: `datetime.strptime(timestamp, "%Y-%m-%dT%H:%M:%S.%fZ")`.
Field ranges follow CPython's `_strptime` regexes (`%Y` exactly four digits;
`%m`, `%d`, `%H`, `%M`, `%S` one or two digits within their calendar ranges)
combined with the `datetime` constructor's validation (year at least 1,
day bounded by the month's length, seconds at most 59 — the constructor
rejects the leap seconds 60/61 that the regex alone would admit).  The whole
string must be consumed.  `none` models the `ValueError` strptime raises. -/
def strptime_fixed (s : String) : Option PyDateTime := do
  let (y, r) ← pField 4 4 0 9999 s.toList
  let r ← pLit '-' r
  let (mo, r) ← pField 1 2 1 12 r
  let r ← pLit '-' r
  let (d, r) ← pField 1 2 1 31 r
  let r ← pLit 'T' r
  let (h, r) ← pField 1 2 0 23 r
  let r ← pLit ':' r
  let (mi, r) ← pField 1 2 0 59 r
  let r ← pLit ':' r
  let (sec, r) ← pField 1 2 0 59 r
  let r ← pLit '.' r
  let (us, r) ← pFrac r
  let r ← pLit 'Z' r
  if r = [] ∧ 1 ≤ y ∧ d ≤ daysInMonth y mo then
    some ⟨y, mo, d, h, mi, sec, us⟩
  else none

/-- `VideoInfo` dataclass (lines 19-24). -/
structure VideoInfo where
  path : PyPath
  fps : Int
  resolution : Int × Int
  creation_time : PyDateTime
deriving DecidableEq, Repr

/-- The Python exceptions the pipeline can raise. -/
inductive PyExc where
  | stopIteration
  | attributeError
  | typeError
  | valueError
deriving DecidableEq, Repr

/-- One stream entry of the probe's JSON output: each field is `none` when
the corresponding key is missing. -/
structure ProbeStream where
  codec_type : Option String
  r_frame_rate : Option String
  width : Option Int
  height : Option Int
  tags : Option (List (String × String))
deriving DecidableEq, Repr

/-- Outcome of `ffmpeg.probe(filename)` for one file: either the external
tool raised `ffmpeg.Error`, or it returned a JSON object whose `"streams"`
key holds the given list (`none` when the key is missing). -/
inductive ProbeResult where
  | err
  | ok (streams : Option (List ProbeStream))
deriving DecidableEq, Repr

/-- Lines 95-120: `parse_video_file`.  The embedding takes the probe's
outcome for the file as an explicit argument (the probe itself is the
out-of-scope external collaborator).  Only `ffmpeg.Error` is caught (and
ignored, so the function falls through and returns `None`); every other
failure raises:
* `probe.get("streams")` missing → iterating `None` raises `TypeError`;
* no stream with `codec_type == "video"` → `next` raises `StopIteration`;
* `r_frame_rate` missing → `None.split` raises `AttributeError`;
* malformed numerator → `int()` raises `ValueError`;
* `width`/`height` missing → `int(None)` raises `TypeError`;
* `tags` missing → `None.get` raises `AttributeError`;
* `creation_time` missing → `strptime(None, ...)` raises `TypeError`;
* malformed timestamp → `strptime` raises `ValueError`. -/
def parse_video_file (filename : PyPath) (probe : ProbeResult) :
    Except PyExc (Option VideoInfo) :=
  match probe with
  | ProbeResult.err => Except.ok none
  | ProbeResult.ok streams =>
    match streams with
    | none => Except.error PyExc.typeError
    | some ss =>
      match ss.find? (fun s => s.codec_type == some "video") with
      | none => Except.error PyExc.stopIteration
      | some info =>
        match info.r_frame_rate with
        | none => Except.error PyExc.attributeError
        | some rfr =>
          match parseFrameRate rfr with
          | none => Except.error PyExc.valueError
          | some frame_rate =>
            match info.width with
            | none => Except.error PyExc.typeError
            | some w =>
              match info.height with
              | none => Except.error PyExc.typeError
              | some ht =>
                match info.tags with
                | none => Except.error PyExc.attributeError
                | some tags =>
                  match tags.lookup "creation_time" with
                  | none => Except.error PyExc.typeError
                  | some ts =>
                    match strptime_fixed ts with
                    | none => Except.error PyExc.valueError
                    | some ct =>
                      Except.ok (some { path := filename, fps := frame_rate,
                                        resolution := (w, ht),
                                        creation_time := ct })

/-- Zero-pad a number to two digits (strftime `%m`, `%d`, `%H`, `%M`, `%S`). -/
def pad2 (n : Nat) : String :=
  if n < 10 then "0" ++ toString n else toString n

/-- Zero-pad a number to four digits (strftime `%Y` as CPython's datetime
formats it for four-digit years). -/
def pad4 (n : Nat) : String :=
  if n < 10 then "000" ++ toString n
  else if n < 100 then "00" ++ toString n
  else if n < 1000 then "0" ++ toString n
  else toString n

/-- Line 132: `creation_time.strftime("%Y-%m-%dT%H%M%S")`. -/
def strftime_YmdTHMS (t : PyDateTime) : String :=
  pad4 t.year ++ "-" ++ pad2 t.month ++ "-" ++ pad2 t.day ++ "T" ++
    pad2 t.hour ++ pad2 t.minute ++ pad2 t.second

/-- What `rename_video_file` (lines 123-140) computes and does for one file.
The Python function returns `None`; this record captures its locals and its
observable effects: the filename it builds (line 135), the target path it
joins (line 138), the filesystem rename operations it issues — none: the
function stops after computing `p` and never calls any rename/move — and the
lines it prints (line 140, only at verbosity at least 2). -/
structure RenameResult where
  new_filename : String
  target : PyPath
  fs_renames : List (PyPath × PyPath)
  stdout : List String
deriving DecidableEq, Repr

set_option linter.unusedVariables false in
/-- Lines 123-140: `rename_video_file(video_info, prefix="", dry_run=True,
verbose=0)`.  The second argument models the `prefix` parameter (Python's
empty-string default is passed explicitly by callers of this embedding);
`prefix if prefix else video_info.path.stem` is the emptiness test below.
`dry_run` is accepted and never read, exactly as in the source. -/
def rename_video_file (video_info : VideoInfo) (pfx : String)
    (dry_run : Bool) (verbose : Int) : RenameResult :=
  let SEP := "_"
  let resolution := toString video_info.resolution.1 ++ "x" ++
    toString video_info.resolution.2
  let fps := toString video_info.fps ++ "fps"
  let creation_time := strftime_YmdTHMS video_info.creation_time
  let metadata := String.intercalate SEP [resolution, fps, creation_time]
  let pfx := if pfx ≠ "" then pfx else pyStem video_info.path.name
  let new_filename := pfx ++ SEP ++ metadata ++
    pyLower (pySuffix video_info.path.name)
  let p : PyPath := { parent := video_info.path.parent, name := new_filename }
  { new_filename := new_filename
    target := p
    fs_renames := []
    stdout :=
      if verbose ≥ 2 then
        ["Renaming `" ++ pathStr video_info.path ++ "` to `" ++ pathStr p ++ "`"]
      else [] }

/-- An entry of a directory: a plain file or a subdirectory with its own
entries, in `iterdir` order. -/
inductive FsEntry where
  | file (name : String)
  | dir (name : String) (entries : List FsEntry)

/-- Lines 68-78: `find_video_files(root, ext=".mp4")`, yielding paths as
component lists relative to the root, in traversal order.  Two source
details are reproduced faithfully:
* the recursive call on a subdirectory is `find_video_files(path)` — the
  `ext` argument is NOT forwarded, so inside subdirectories the filter is
  always the default `".mp4"`;
* the file test is `path.is_file and ...`: the method is not called, so the
  (always truthy) bound method makes the condition reduce to the suffix
  comparison alone — in this model every non-directory entry is a file, so
  only the suffix comparison remains. -/
def find_video_files : List FsEntry → String → List (List String)
  | [], _ => []
  | FsEntry.dir n sub :: rest, ext =>
    ((find_video_files sub ".mp4").map (fun p => n :: p)) ++
      find_video_files rest ext
  | FsEntry.file n :: rest, ext =>
    (if pyLower (pySuffix n) = ext then [[n]] else []) ++
      find_video_files rest ext

/-- Lines 143-166: the body of `main` after argument parsing, as a function
of the discovered files paired with their probe outcomes.  The list
comprehension `[await task for task in tasks]` awaits the extraction tasks in
list order and re-raises the first exception one of them raised; the
subsequent `for` loop calls `rename_video_file(video, args.prefix,
verbose=args.verbose)` on EVERY collected result — including `None` results,
which it does not filter out: `rename_video_file(None, ...)` raises
`AttributeError` at its first attribute access (`video_info.resolution`).
The purely informational `print` calls at verbosity ≥ 1 (lines 155-160, 166)
do not affect control flow and are not modelled. -/
def mainDriver (files : List (PyPath × ProbeResult)) (pfx : String)
    (verbose : Int) : Except PyExc (List RenameResult) := do
  let metadata_tasks ← files.mapM (fun fp => parse_video_file fp.1 fp.2)
  metadata_tasks.mapM (fun video =>
    match video with
    | none => Except.error PyExc.attributeError
    | some vi => Except.ok (rename_video_file vi pfx true verbose))

/-- Events observable in `main`'s coroutine, for the temporal claim:
`extractDone i` — the await of extraction task `i` completed (line 158);
`renameCall i` — `rename_video_file` was invoked for result `i` (line 163). -/
inductive DriverEvent where
  | extractDone (i : Nat)
  | renameCall (i : Nat)
deriving DecidableEq, Repr

/-- The await loop `[await task for task in tasks]` (line 158): each await
that returns yields an `extractDone` event; an await that re-raises still
completed that extraction (event emitted) but aborts the comprehension. -/
def awaitTrace : Nat → List (Except PyExc (Option VideoInfo)) →
    List DriverEvent × Bool
  | _, [] => ([], false)
  | i, Except.ok _ :: rest =>
    let (es, c) := awaitTrace (i + 1) rest
    (DriverEvent.extractDone i :: es, c)
  | i, Except.error _ :: _ => ([DriverEvent.extractDone i], true)

/-- The rename loop (lines 162-163): a `renameCall` event per result; a
`None` result makes `rename_video_file` raise before doing anything, which
aborts the loop. -/
def renameTrace : Nat → List (Option VideoInfo) → List DriverEvent
  | _, [] => []
  | _, none :: _ => []
  | i, some _ :: rest => DriverEvent.renameCall i :: renameTrace (i + 1) rest

/-- The `Option VideoInfo` results among the successfully awaited tasks. -/
def okOptions : List (Except PyExc (Option VideoInfo)) →
    List (Option VideoInfo) :=
  List.filterMap (fun r =>
    match r with
    | Except.ok o => some o
    | Except.error _ => none)

/-- The event trace of one run of `main` (lines 143-166): first the await
loop over all extraction tasks, then — only if no await re-raised — the
rename loop over the collected results. -/
def mainEvents (files : List (PyPath × ProbeResult)) : List DriverEvent :=
  let results := files.map (fun fp => parse_video_file fp.1 fp.2)
  let ec := awaitTrace 0 results
  if ec.2 then ec.1 else ec.1 ++ renameTrace 0 (okOptions results)

/-! Concrete values used to instantiate the claims. -/

/-- A discovered file `videos/clip1.mp4`. -/
def demoPath : PyPath := { parent := ["videos"], name := "clip1.mp4" }

/-- A second discovered file `videos/clip2.mp4`. -/
def demoPath2 : PyPath := { parent := ["videos"], name := "clip2.mp4" }

/-- A fully well-formed video stream as the probe reports it. -/
def goodProbeStream : ProbeStream :=
  { codec_type := some "video", r_frame_rate := some "30/1",
    width := some 1920, height := some 1080,
    tags := some [("creation_time", "2023-05-01T12:30:00.000000Z")] }

/-- A successful probe outcome with one well-formed video stream. -/
def goodProbe : ProbeResult := ProbeResult.ok (some [goodProbeStream])

/-- The metadata extracted from `goodProbe` for `demoPath`: resolution
1920x1080, 30 fps, creation time 2023-05-01T12:30:00. -/
def demoInfo : VideoInfo :=
  { path := demoPath, fps := 30, resolution := (1920, 1080),
    creation_time := ⟨2023, 5, 1, 12, 30, 0, 0⟩ }

/-- A probe outcome whose only flaw is a creation-time string not matching
the fixed pattern (space instead of `T`, no fractional seconds, no `Z`). -/
def badTimestampProbe : ProbeResult :=
  ProbeResult.ok (some
    [{ codec_type := some "video", r_frame_rate := some "30/1",
       width := some 1920, height := some 1080,
       tags := some [("creation_time", "2023-05-01 12:30:00")] }])

/-- C1: the claim says the driver filters out files whose extraction produced
no `VideoInfo` and still processes all other files.  The code does not
filter: `main` passes every collected result — `None` included — straight to
`rename_video_file`, which raises `AttributeError` on `None`, aborting the
whole batch.  First conjunct: with one failed probe and one good file, the
run crashes instead of renaming the good file.  Second conjunct: the good
file alone is processed normally, so the crash is caused precisely by the
unfiltered `None`. -/
theorem c1_driver_crashes_on_probe_failure :
    mainDriver [(demoPath2, ProbeResult.err), (demoPath, goodProbe)] "" 0 =
      Except.error PyExc.attributeError ∧
    mainDriver [(demoPath, goodProbe)] "" 0 =
      Except.ok [rename_video_file demoInfo "" true 0] :=
  ⟨rfl, rfl⟩

/-- C3: the claim says `find_video_files` returns exactly the files matching
the given extension at every nesting depth.  The code contradicts this (and
its own docstring): the recursive call omits the `ext` argument, so inside
subdirectories the filter is the default `".mp4"`.  Searching the tree
`d/{a.avi, b.mp4}` for `".avi"` misses `d/a.avi` and returns `d/b.mp4`, a
file whose extension does not match. -/
theorem c3_recursion_drops_ext :
    find_video_files
      [FsEntry.dir "d" [FsEntry.file "a.avi", FsEntry.file "b.mp4"]] ".avi" =
      [["d", "b.mp4"]] := by
  simp [find_video_files, pySuffix, pyLower, rfindChar]

/-- C4: the Filename Builder on a VideoInfo with resolution 1920x1080,
30 fps, creation time 2023-05-01T12:30:00 and original name `clip1.mp4`
produces `clip1_1920x1080_30fps_2023-05-01T123000.mp4` with the empty
prefix and `vacation_1920x1080_30fps_2023-05-01T123000.mp4` with prefix
`"vacation"`. -/
theorem c4_expected_filenames :
    (rename_video_file demoInfo "" true 0).new_filename =
      "clip1_1920x1080_30fps_2023-05-01T123000.mp4" ∧
    (rename_video_file demoInfo "vacation" true 0).new_filename =
      "vacation_1920x1080_30fps_2023-05-01T123000.mp4" :=
  ⟨rfl, rfl⟩

/-- C5 counterexample: the claim says the Renamer moves/renames the file.
At a concrete input it issues no filesystem rename operation at all — the
function computes the target path and stops (it only logs at verbosity ≥ 2),
so "the Renamer moves/renames the file" is false. -/
theorem c5_counterexample :
    ¬ ∃ op, op ∈ (rename_video_file demoInfo "" true 2).fs_renames := by
  simp [rename_video_file]

/-- C5 amended: the target path `rename_video_file` computes stays in the
original file's parent directory — only the filename component differs — but
no filesystem rename is actually performed. -/
theorem c5_target_same_parent (vi : VideoInfo) (pfx : String) (d : Bool)
    (vb : Int) :
    (rename_video_file vi pfx d vb).target.parent = vi.path.parent ∧
    (rename_video_file vi pfx d vb).fs_renames = [] :=
  ⟨rfl, rfl⟩

/-- C6: the Filename Builder is a deterministic pure function of
`(VideoInfo, prefix)`: equal metadata and prefixes yield equal filenames,
whatever the `dry_run` and `verbose` arguments are. -/
theorem c6_filename_builder_deterministic (v₁ v₂ : VideoInfo)
    (p₁ p₂ : String) (d₁ d₂ : Bool) (vb₁ vb₂ : Int)
    (hv : v₁ = v₂) (hp : p₁ = p₂) :
    (rename_video_file v₁ p₁ d₁ vb₁).new_filename =
      (rename_video_file v₂ p₂ d₂ vb₂).new_filename := by
  subst hv
  subst hp
  rfl

/-- Witness for C6 at a concrete input. -/
theorem c6_witness :
    (rename_video_file demoInfo "vacation" true 0).new_filename =
      (rename_video_file demoInfo "vacation" false 5).new_filename :=
  c6_filename_builder_deterministic demoInfo demoInfo "vacation" "vacation"
    true false 0 5 rfl rfl

/-- C10: `rename_video_file` performs no filesystem mutation for any input:
it issues no rename operation, its result is independent of `dry_run`, and
its only observable effect is printing the intended rename exactly when
`verbose ≥ 2`. -/
theorem c10_no_fs_mutation (vi : VideoInfo) (pfx : String) (d : Bool)
    (vb : Int) :
    (rename_video_file vi pfx d vb).fs_renames = [] ∧
    rename_video_file vi pfx d vb = rename_video_file vi pfx (!d) vb ∧
    ((rename_video_file vi pfx d vb).stdout ≠ [] ↔ vb ≥ 2) := by
  refine ⟨rfl, rfl, ?_⟩
  by_cases h : vb ≥ 2 <;> simp [rename_video_file, h]

/-- C2 counterexample: the claim says the extractor returns `None` rather
than raising on a creation-time string not matching the fixed pattern.  On a
probe whose only flaw is the timestamp `"2023-05-01 12:30:00"`, the
extractor instead raises `ValueError` (uncaught: only `ffmpeg.Error` is
handled), so it does not return `None` and the failure is not isolated. -/
theorem c2_counterexample :
    parse_video_file demoPath badTimestampProbe =
      Except.error PyExc.valueError ∧
    parse_video_file demoPath badTimestampProbe ≠ Except.ok none := by
  constructor
  · rfl
  · intro h
    rw [show parse_video_file demoPath badTimestampProbe =
      Except.error PyExc.valueError from rfl] at h
    exact nomatch h

/-- C2 amended: the extractor returns "no metadata" (`None`) exactly when
the external probe itself raises `ffmpeg.Error`; every other failure —
missing streams list, no video stream, missing or malformed fields,
including a creation-time string not matching the fixed pattern — raises an
uncaught exception that propagates out of the extractor. -/
theorem c2_none_iff_probe_error (fn : PyPath) (pr : ProbeResult) :
    parse_video_file fn pr = Except.ok none ↔ pr = ProbeResult.err := by
  constructor
  · intro h
    cases pr with
    | err => rfl
    | ok streams =>
      exfalso
      cases streams with
      | none => exact nomatch h
      | some ss =>
        simp only [parse_video_file] at h
        repeat' split at h
        all_goals simp_all
  · intro h
    subst h
    rfl

/-- A digit character is not the `'/'` separator. -/
theorem digit_ne_slash {c : Char} (h : c.isDigit = true) :
    (c != '/') = true := by
  by_contra hne
  have hc : c = '/' := by
    simpa using hne
  subst hc
  exact absurd h (by decide)

/-- A digit character differs from any non-digit character. -/
theorem digit_ne {c x : Char} (h : c.isDigit = true)
    (hx : x.isDigit = false) : c ≠ x := by
  intro he
  subst he
  rw [h] at hx
  exact nomatch hx

/-- A digit character is not whitespace. -/
theorem ws_of_digit_false {c : Char} (h : c.isDigit = true) :
    c.isWhitespace = false := by
  cases hw : c.isWhitespace with
  | false => rfl
  | true =>
    exfalso
    simp only [Char.isWhitespace, Bool.or_eq_true, decide_eq_true_eq] at hw
    rcases hw with ((h1 | h1) | h1) | h1 <;>
      (subst h1; exact absurd h (by decide))

/-- `takeWhile` over a block satisfying the predicate followed by a failing
head takes exactly the block. -/
theorem takeWhile_all_append {p : Char → Bool} (N : List Char) (c : Char)
    (D : List Char) (hN : ∀ x ∈ N, p x = true) (hc : p c = false) :
    (N ++ c :: D).takeWhile p = N := by
  induction N with
  | nil => simp [List.takeWhile_cons, hc]
  | cons a as ih =>
    have ha := hN a (by simp)
    simp only [List.cons_append, List.takeWhile_cons, ha, if_true]
    rw [ih (fun x hx => hN x (by simp [hx]))]

/-- `dropWhile isWhitespace` leaves an all-digit list unchanged. -/
theorem dropWhile_ws_digits (N : List Char) (hd : N.all Char.isDigit = true) :
    N.dropWhile Char.isWhitespace = N := by
  cases N with
  | nil => rfl
  | cons a as =>
    have ha : a.isDigit = true := by
      simpa using List.all_eq_true.mp hd a (by simp)
    simp [List.dropWhile_cons, ws_of_digit_false ha]

/-- `int()` on a nonempty digit string yields its Horner value. -/
theorem pyInt_digits (N : List Char) (h1 : N ≠ [])
    (h2 : N.all Char.isDigit = true) :
    pyInt (String.mk N) = some ((digitsVal N : Nat) : Int) := by
  have hstrip : pyStrip (String.mk N) = N := by
    unfold pyStrip
    rw [show (String.mk N).toList = N from rfl]
    rw [dropWhile_ws_digits N h2]
    rw [dropWhile_ws_digits N.reverse (by simpa using h2)]
    rw [List.reverse_reverse]
  unfold pyInt
  rw [hstrip]
  cases N with
  | nil => exact absurd rfl h1
  | cons c ds =>
    have hc : c.isDigit = true := by
      simpa using List.all_eq_true.mp h2 c (by simp)
    simp only [pyIntCore]
    rw [if_neg (show c ≠ '-' from digit_ne hc (by decide))]
    rw [if_neg (show c ≠ '+' from digit_ne hc (by decide))]
    rw [if_pos h2]

/-- Horner evaluation of a digit list, with accumulator, as a `Nat.ofDigits`
value. -/
theorem digitsVal_foldl (l : List Char) (a : Nat) :
    l.foldl (fun a c => 10 * a + (c.toNat - 48)) a =
      a * 10 ^ l.length +
        Nat.ofDigits 10 ((l.map fun c => c.toNat - 48)).reverse := by
  induction l generalizing a with
  | nil => simp [Nat.ofDigits]
  | cons c t ih =>
    simp only [List.foldl_cons, List.map_cons, List.length_cons,
      List.reverse_cons]
    rw [ih, Nat.ofDigits_append]
    simp only [Nat.ofDigits, List.length_reverse, List.length_map,
      Nat.cast_id, mul_zero, add_zero]
    ring

/-- The Horner value of a digit list is the standard base-10 value of its
digits. -/
theorem digitsVal_eq_ofDigits (l : List Char) :
    digitsVal l = Nat.ofDigits 10 ((l.map fun c => c.toNat - 48)).reverse := by
  have h := digitsVal_foldl l 0
  simpa [digitsVal] using h

/-- C7: on a rational frame-rate string `N/D` with a nonempty digit
numerator, the extracted fps is the integer value of the numerator `N`
alone — the denominator `D` (any string at all) is ignored, and the result
coincides with `int(N)`. -/
theorem c7_fps_numerator (N D : List Char) (h1 : N ≠ [])
    (h2 : N.all Char.isDigit = true) :
    parseFrameRate (String.mk (N ++ '/' :: D)) =
      some ((Nat.ofDigits 10 ((N.map fun c => c.toNat - 48)).reverse : Nat) :
        Int) ∧
    parseFrameRate (String.mk (N ++ '/' :: D)) = pyInt (String.mk N) := by
  have hsplit : splitSlashHead (String.mk (N ++ '/' :: D)) = String.mk N := by
    unfold splitSlashHead
    rw [show (String.mk (N ++ '/' :: D)).toList = N ++ '/' :: D from rfl]
    rw [takeWhile_all_append N '/' D
      (fun x hx => digit_ne_slash (List.all_eq_true.mp h2 x hx)) (by decide)]
  have hint := pyInt_digits N h1 h2
  constructor
  · rw [parseFrameRate, hsplit, hint, digitsVal_eq_ofDigits]
  · rw [parseFrameRate, hsplit]

/-- Witness for C7 at the NTSC rational `30000/1001`: fps is 30000. -/
theorem c7_witness :
    parseFrameRate
      (String.mk (['3', '0', '0', '0', '0'] ++ '/' :: ['1', '0', '0', '1'])) =
      some 30000 :=
  ((c7_fps_numerator ['3', '0', '0', '0', '0'] ['1', '0', '0', '1']
    (by decide) (by decide)).1).trans (by decide)

/-- Every event of the await loop is an extraction completion. -/
theorem awaitTrace_extractDone (i0 : Nat)
    (rs : List (Except PyExc (Option VideoInfo))) :
    ∀ e ∈ (awaitTrace i0 rs).1, ∃ k, e = DriverEvent.extractDone k := by
  induction rs generalizing i0 with
  | nil =>
    intro e he
    simp [awaitTrace] at he
  | cons r rest ih =>
    cases r with
    | ok o =>
      intro e he
      simp only [awaitTrace] at he
      rcases List.mem_cons.mp he with he | he
      · exact ⟨i0, he⟩
      · exact ih (i0 + 1) e he
    | error ex =>
      intro e he
      simp only [awaitTrace] at he
      rcases List.mem_cons.mp he with he | he
      · exact ⟨i0, he⟩
      · simp at he

/-- Every event of the rename loop is a rename invocation. -/
theorem renameTrace_renameCall (i0 : Nat) (os : List (Option VideoInfo)) :
    ∀ e ∈ renameTrace i0 os, ∃ k, e = DriverEvent.renameCall k := by
  induction os generalizing i0 with
  | nil =>
    intro e he
    simp [renameTrace] at he
  | cons o rest ih =>
    cases o with
    | none =>
      intro e he
      simp [renameTrace] at he
    | some vi =>
      intro e he
      simp only [renameTrace] at he
      rcases List.mem_cons.mp he with he | he
      · exact ⟨i0, he⟩
      · exact ih (i0 + 1) e he

/-- C8: in every run of the driver, every rename invocation occurs strictly
after every extraction completion in the event trace — the driver collects
all extraction results before the first call to the Renamer (scatter-gather,
no streaming). -/
theorem c8_all_extraction_before_rename (files : List (PyPath × ProbeResult))
    (i j a b : Nat)
    (hi : (mainEvents files)[i]? = some (DriverEvent.extractDone a))
    (hj : (mainEvents files)[j]? = some (DriverEvent.renameCall b)) :
    i < j := by
  unfold mainEvents at hi hj
  by_cases hc :
      (awaitTrace 0 (files.map (fun fp => parse_video_file fp.1 fp.2))).2
  · rw [if_pos hc] at hj
    obtain ⟨k, hk⟩ :=
      awaitTrace_extractDone 0
        (files.map (fun fp => parse_video_file fp.1 fp.2))
        (DriverEvent.renameCall b) (List.getElem?_mem hj)
    exact nomatch hk
  · rw [if_neg hc] at hi hj
    have hjlen :
        (awaitTrace 0
          (files.map (fun fp => parse_video_file fp.1 fp.2))).1.length ≤ j := by
      by_contra hlt
      rw [List.getElem?_append_left (Nat.lt_of_not_le hlt)] at hj
      obtain ⟨k, hk⟩ :=
        awaitTrace_extractDone 0
          (files.map (fun fp => parse_video_file fp.1 fp.2))
          (DriverEvent.renameCall b) (List.getElem?_mem hj)
      exact nomatch hk
    have hilen : i <
        (awaitTrace 0
          (files.map (fun fp => parse_video_file fp.1 fp.2))).1.length := by
      by_contra hge
      rw [List.getElem?_append_right (Nat.le_of_not_lt hge)] at hi
      obtain ⟨k, hk⟩ :=
        renameTrace_renameCall 0
          (okOptions (files.map (fun fp => parse_video_file fp.1 fp.2)))
          (DriverEvent.extractDone a) (List.getElem?_mem hi)
      exact nomatch hk
    exact Nat.lt_of_lt_of_le hilen hjlen

/-- Witness for C8 on a one-file run: the extraction completion at index 0
precedes the rename invocation at index 1. -/
theorem c8_witness :
    (mainEvents [(demoPath, goodProbe)])[0]? =
      some (DriverEvent.extractDone 0) ∧
    (mainEvents [(demoPath, goodProbe)])[1]? =
      some (DriverEvent.renameCall 0) ∧
    0 < 1 :=
  ⟨by decide, by decide,
    c8_all_extraction_before_rename [(demoPath, goodProbe)] 0 1 0 0
      (by decide) (by decide)⟩

/-- C9: every `VideoInfo` the extractor returns is fully populated — it
exists only when the probe succeeded, a video stream was found, and the
frame rate, width, height and creation timestamp were each successfully
parsed; each field of the result is exactly the corresponding parsed
value. -/
theorem c9_videoinfo_fully_populated (fn : PyPath) (pr : ProbeResult)
    (vi : VideoInfo) (h : parse_video_file fn pr = Except.ok (some vi)) :
    ∃ ss info rfr tags ts,
      pr = ProbeResult.ok (some ss) ∧
      ss.find? (fun s => s.codec_type == some "video") = some info ∧
      info.r_frame_rate = some rfr ∧
      parseFrameRate rfr = some vi.fps ∧
      info.width = some vi.resolution.1 ∧
      info.height = some vi.resolution.2 ∧
      info.tags = some tags ∧
      tags.lookup "creation_time" = some ts ∧
      strptime_fixed ts = some vi.creation_time ∧
      vi.path = fn := by
  cases pr with
  | err => exact absurd h (by simp [parse_video_file])
  | ok streams =>
    cases streams with
    | none => exact nomatch h
    | some ss =>
      simp only [parse_video_file] at h
      split at h
      · exact nomatch h
      rename_i info hfind
      split at h
      · exact nomatch h
      rename_i rfr hrfr
      split at h
      · exact nomatch h
      rename_i fr hfr
      split at h
      · exact nomatch h
      rename_i w hw
      split at h
      · exact nomatch h
      rename_i ht hht
      split at h
      · exact nomatch h
      rename_i tags htags
      split at h
      · exact nomatch h
      rename_i ts hts
      split at h
      · exact nomatch h
      rename_i ct hct
      injection h with h2
      injection h2 with h3
      subst h3
      exact ⟨ss, info, rfr, tags, ts, rfl, hfind, hrfr, hfr, hw, hht, htags,
        hts, hct, rfl⟩

/-- Witness for C9: the concrete well-formed probe yields exactly
`demoInfo`, with every field tied to its parsed source. -/
theorem c9_witness :
    ∃ ss info rfr tags ts,
      goodProbe = ProbeResult.ok (some ss) ∧
      ss.find? (fun s => s.codec_type == some "video") = some info ∧
      info.r_frame_rate = some rfr ∧
      parseFrameRate rfr = some demoInfo.fps ∧
      info.width = some demoInfo.resolution.1 ∧
      info.height = some demoInfo.resolution.2 ∧
      info.tags = some tags ∧
      tags.lookup "creation_time" = some ts ∧
      strptime_fixed ts = some demoInfo.creation_time ∧
      demoInfo.path = demoPath :=
  c9_videoinfo_fully_populated demoPath goodProbe demoInfo rfl

end RenameVideos
